import Mathlib

/-!
Verification development for the go-postgres-mcp query gateway.

The repository contains two overlapping implementation variants of the
gateway:

* the pgxpool variant (`handlers.go` and the first part of the combined
  source file): handlers with a metrics aggregator (`ServerMetrics`),
  an error funnel (`handleError`) and a deferred handler-time update
  (`updateMetrics`);
* the sqlx/CSV variant (the second part of the combined source file):
  `DoQuery` / `HandleExec` / `HandleExplain` with an optional EXPLAIN
  pre-flight and `MapToCSV` output.

Both variants are embedded below.  Wall-clock durations are oracle
parameters (in nanoseconds); the database is an oracle function from
statement text to a driver outcome, and every statement handed to the
driver is recorded in an execution log (`dbLog`), the "execution-count
probe" the specification refers to.  Go `string` values are Lean
`String`s; all Go standard-library string operations used by the source
are re-implemented structurally over `List Char` (faithful on the ASCII
statements the gateway inspects).
-/

deriving instance DecidableEq for Except

namespace PostgresMCP

/-- Go `strings.ToUpper`, modelled by ASCII case-folding of every
character (the SQL keywords the gateway tests for are ASCII). -/
def goToUpper (s : String) : String := String.mk (s.data.map Char.toUpper)

/-- Go `strings.TrimSpace`: drop leading and trailing whitespace. -/
def goTrimSpace (s : String) : String :=
  String.mk (((s.data.dropWhile Char.isWhitespace).reverse.dropWhile Char.isWhitespace).reverse)

/-- Character-list infix test: does `pat` occur contiguously in the list? -/
def infixOfChars (pat : List Char) : List Char → Bool
  | [] => pat.isEmpty
  | c :: rest => pat.isPrefixOf (c :: rest) || infixOfChars pat rest

/-- Go `strings.Contains s sub`. -/
def goContains (s sub : String) : Bool := infixOfChars sub.data s.data

/-- Go `strings.HasPrefix s pre`. -/
def goStartsWith (s pre : String) : Bool := pre.data.isPrefixOf s.data

/-- Dynamically-typed argument value (Go `interface{}` as decoded from
JSON): string, number, boolean or null.  Numbers are modelled as
integers (Go uses `float64`; no claim depends on fractional values). -/
inductive GoValue where
  | str (s : String)
  | num (n : Int)
  | bool (b : Bool)
  | null
  deriving DecidableEq

/-- The argument mapping of one tool request (`request.Params.Arguments`). -/
abbrev GoArgs := List (String × GoValue)

/-- Go `getStringParam`: type-assert the argument to `string`,
returning the default on absence or dynamic-type mismatch. -/
def getStringParam (args : GoArgs) (key : String) (defaultValue : String) : String :=
  match args.lookup key with
  | some (GoValue.str value) => value
  | _ => defaultValue

/-- Go `getNumberParam`: type-assert the argument to a number,
returning the default on absence or dynamic-type mismatch. -/
def getNumberParam (args : GoArgs) (key : String) (defaultValue : Int) : Int :=
  match args.lookup key with
  | some (GoValue.num value) => value
  | _ => defaultValue

/-- Go `getBoolParam`: type-assert the argument to `bool`,
returning the default on absence or dynamic-type mismatch. -/
def getBoolParam (args : GoArgs) (key : String) (defaultValue : Bool) : Bool :=
  match args.lookup key with
  | some (GoValue.bool value) => value
  | _ => defaultValue

/-- Go `ServerMetrics` (the process start timestamp, pure wall clock, is
omitted).  `TotalResponseTime` is in nanoseconds. -/
structure ServerMetrics where
  QueriesExecuted : Nat
  QueryErrors : Nat
  ConnectionsActive : Nat
  TotalResponseTime : Nat
  deriving DecidableEq

/-- Observable gateway state: the metrics aggregator plus the list of
statements handed to the database driver, in order (the execution-count
probe; the Go program sends statements over a connection instead of
logging them). -/
structure GatewayState where
  metrics : ServerMetrics
  dbLog : List String
  deriving DecidableEq

/-- The `metrics.QueryErrors++` critical section. -/
def recordError (w : GatewayState) : GatewayState :=
  { w with metrics := { w.metrics with QueryErrors := w.metrics.QueryErrors + 1 } }

/-- The `metrics.QueriesExecuted++; metrics.TotalResponseTime += timing`
critical section of the executors. -/
def recordSuccess (elapsedNs : Nat) (w : GatewayState) : GatewayState :=
  { w with metrics := { w.metrics with
      QueriesExecuted := w.metrics.QueriesExecuted + 1,
      TotalResponseTime := w.metrics.TotalResponseTime + elapsedNs } }

/-- Go `updateMetrics(start)`: the deferred handler-time update, adding
the handler's elapsed wall-clock time to the accumulator. -/
def updateMetrics (elapsedNs : Nat) (w : GatewayState) : GatewayState :=
  { w with metrics := { w.metrics with
      TotalResponseTime := w.metrics.TotalResponseTime + elapsedNs } }

/-- An MCP tool result: always a textual payload (errors are rendered
into the text, never a transport-level failure). -/
structure MCPResult where
  text : String
  deriving DecidableEq

/-- Go `handleError`: bump the error counter and reply with an
`Error: ...` text payload. -/
def handleError (err : String) (w : GatewayState) : MCPResult × GatewayState :=
  ({ text := "Error: " ++ err }, recordError w)

/-- Driver oracle for `Exec`: statement text to error or affected-row
count reported by the database. -/
abbrev ExecOracle := String → Except String Int

/-- Driver oracle for `Query`: statement text to error or the result's
column metadata plus raw record values. -/
abbrev QueryOracle := String → Except String (List String × List (List GoValue))

/-- Rendering of a nanosecond duration (Go `time.Duration.String`,
exact for sub-microsecond durations; no theorem depends on the text). -/
def goDurStr (ns : Nat) : String := toString ns ++ "ns"

/-- Go `executeWriteQuery`: log the statement, run it through the
driver; on error bump `QueryErrors`, on success bump `QueriesExecuted`
and the accumulator and render the affected-row summary. -/
def executeWriteQuery (db : ExecOracle) (elapsedNs : Nat) (query : String)
    (returnID : Bool) (w : GatewayState) : Except String String × GatewayState :=
  let w1 : GatewayState := { w with dbLog := w.dbLog ++ [query] }
  match db query with
  | Except.error e => (Except.error e, recordError w1)
  | Except.ok rowsAffected =>
      let response := "Query executed successfully.\nRows affected: " ++
        toString rowsAffected ++ "\nExecution time: " ++ goDurStr elapsedNs
      let response := if returnID && goContains (goToUpper query) "INSERT" then
          response ++ "\nNote: To get inserted IDs, use RETURNING clause in your INSERT statement"
        else response
      (Except.ok response, recordSuccess elapsedNs w1)

/-- Go `Handlers.HandleUpdateQuery`.  `dbElapsedNs` is the duration of
the database call, `handlerElapsedNs` the whole handler's duration as
seen by the deferred `updateMetrics` (registered after the read-only
check, so it does not run on the read-only rejection path). -/
def handleUpdateQuery (readOnly : Bool) (args : GoArgs) (db : ExecOracle)
    (dbElapsedNs handlerElapsedNs : Nat) (w : GatewayState) : MCPResult × GatewayState :=
  if readOnly then handleError "server is in read-only mode" w
  else
    let query := getStringParam args "query" ""
    if query = "" then
      let (r, w1) := handleError "query parameter is required" w
      (r, updateMetrics handlerElapsedNs w1)
    else
      let force := getBoolParam args "force" false
      if !force && !(goContains (goToUpper query) "WHERE") then
        let (r, w1) := handleError "UPDATE queries must include a WHERE clause. Use force=true to override" w
        (r, updateMetrics handlerElapsedNs w1)
      else
        match executeWriteQuery db dbElapsedNs query false w with
        | (Except.error e, w1) =>
            let (r, w2) := handleError e w1
            (r, updateMetrics handlerElapsedNs w2)
        | (Except.ok result, w1) => ({ text := result }, updateMetrics handlerElapsedNs w1)

/-- Go `Handlers.HandleDeleteQuery`. -/
def handleDeleteQuery (readOnly : Bool) (args : GoArgs) (db : ExecOracle)
    (dbElapsedNs handlerElapsedNs : Nat) (w : GatewayState) : MCPResult × GatewayState :=
  if readOnly then handleError "server is in read-only mode" w
  else
    let query := getStringParam args "query" ""
    if query = "" then
      let (r, w1) := handleError "query parameter is required" w
      (r, updateMetrics handlerElapsedNs w1)
    else
      let force := getBoolParam args "force" false
      if !force && !(goContains (goToUpper query) "WHERE") then
        let (r, w1) := handleError "DELETE queries must include a WHERE clause. Use force=true to override" w
        (r, updateMetrics handlerElapsedNs w1)
      else
        match executeWriteQuery db dbElapsedNs query false w with
        | (Except.error e, w1) =>
            let (r, w2) := handleError e w1
            (r, updateMetrics handlerElapsedNs w2)
        | (Except.ok result, w1) => ({ text := result }, updateMetrics handlerElapsedNs w1)

/-- Go `Handlers.HandleWriteQuery`. -/
def handleWriteQuery (readOnly : Bool) (args : GoArgs) (db : ExecOracle)
    (dbElapsedNs handlerElapsedNs : Nat) (w : GatewayState) : MCPResult × GatewayState :=
  if readOnly then handleError "server is in read-only mode" w
  else
    let query := getStringParam args "query" ""
    if query = "" then
      let (r, w1) := handleError "query parameter is required" w
      (r, updateMetrics handlerElapsedNs w1)
    else
      let returnID := getBoolParam args "return_id" false
      match executeWriteQuery db dbElapsedNs query returnID w with
      | (Except.error e, w1) =>
          let (r, w2) := handleError e w1
          (r, updateMetrics handlerElapsedNs w2)
      | (Except.ok result, w1) => ({ text := result }, updateMetrics handlerElapsedNs w1)

/-- Go `Handlers.HandleCreateTable`. -/
def handleCreateTable (readOnly : Bool) (args : GoArgs) (db : ExecOracle)
    (dbElapsedNs handlerElapsedNs : Nat) (w : GatewayState) : MCPResult × GatewayState :=
  if readOnly then handleError "server is in read-only mode" w
  else
    let query := getStringParam args "query" ""
    if query = "" then
      let (r, w1) := handleError "query parameter is required" w
      (r, updateMetrics handlerElapsedNs w1)
    else
      match executeWriteQuery db dbElapsedNs query false w with
      | (Except.error e, w1) =>
          let (r, w2) := handleError e w1
          (r, updateMetrics handlerElapsedNs w2)
      | (Except.ok result, w1) => ({ text := result }, updateMetrics handlerElapsedNs w1)

/-- Go `Handlers.HandleAlterTable`. -/
def handleAlterTable (readOnly : Bool) (args : GoArgs) (db : ExecOracle)
    (dbElapsedNs handlerElapsedNs : Nat) (w : GatewayState) : MCPResult × GatewayState :=
  if readOnly then handleError "server is in read-only mode" w
  else
    let query := getStringParam args "query" ""
    if query = "" then
      let (r, w1) := handleError "query parameter is required" w
      (r, updateMetrics handlerElapsedNs w1)
    else
      match executeWriteQuery db dbElapsedNs query false w with
      | (Except.error e, w1) =>
          let (r, w2) := handleError e w1
          (r, updateMetrics handlerElapsedNs w2)
      | (Except.ok result, w1) => ({ text := result }, updateMetrics handlerElapsedNs w1)

/-- Go `Handlers.HandleCreateIndex`. -/
def handleCreateIndex (readOnly : Bool) (args : GoArgs) (db : ExecOracle)
    (dbElapsedNs handlerElapsedNs : Nat) (w : GatewayState) : MCPResult × GatewayState :=
  if readOnly then handleError "server is in read-only mode" w
  else
    let query := getStringParam args "query" ""
    if query = "" then
      let (r, w1) := handleError "query parameter is required" w
      (r, updateMetrics handlerElapsedNs w1)
    else
      match executeWriteQuery db dbElapsedNs query false w with
      | (Except.error e, w1) =>
          let (r, w2) := handleError e w1
          (r, updateMetrics handlerElapsedNs w2)
      | (Except.ok result, w1) => ({ text := result }, updateMetrics handlerElapsedNs w1)

/-- Go `Handlers.HandleDropIndex`. -/
def handleDropIndex (readOnly : Bool) (args : GoArgs) (db : ExecOracle)
    (dbElapsedNs handlerElapsedNs : Nat) (w : GatewayState) : MCPResult × GatewayState :=
  if readOnly then handleError "server is in read-only mode" w
  else
    let indexName := getStringParam args "index_name" ""
    if indexName = "" then
      let (r, w1) := handleError "index_name parameter is required" w
      (r, updateMetrics handlerElapsedNs w1)
    else
      let schema := getStringParam args "schema" ""
      let query := "DROP INDEX " ++
        (if schema ≠ "" then schema ++ "." ++ indexName else indexName)
      match executeWriteQuery db dbElapsedNs query false w with
      | (Except.error e, w1) =>
          let (r, w2) := handleError e w1
          (r, updateMetrics handlerElapsedNs w2)
      | (Except.ok result, w1) => ({ text := result }, updateMetrics handlerElapsedNs w1)

/-- Go `Handlers.HandleAnalyzeTable`. -/
def handleAnalyzeTable (readOnly : Bool) (args : GoArgs) (db : ExecOracle)
    (dbElapsedNs handlerElapsedNs : Nat) (w : GatewayState) : MCPResult × GatewayState :=
  if readOnly then handleError "server is in read-only mode" w
  else
    let tableName := getStringParam args "table_name" ""
    if tableName = "" then
      let (r, w1) := handleError "table_name parameter is required" w
      (r, updateMetrics handlerElapsedNs w1)
    else
      let schema := getStringParam args "schema" "public"
      let query := "ANALYZE " ++ schema ++ "." ++ tableName
      match executeWriteQuery db dbElapsedNs query false w with
      | (Except.error e, w1) =>
          let (r, w2) := handleError e w1
          (r, updateMetrics handlerElapsedNs w2)
      | (Except.ok result, w1) => ({ text := result }, updateMetrics handlerElapsedNs w1)

/-- Go `isReadOnlyQuery`: trim, case-fold, test for the `SELECT`,
`WITH` or `EXPLAIN` prefix. -/
def isReadOnlyQuery (query : String) : Bool :=
  let upperQuery := goToUpper (goTrimSpace query)
  goStartsWith upperQuery "SELECT" || goStartsWith upperQuery "WITH" ||
    goStartsWith upperQuery "EXPLAIN"

/-- A Go `map[string]interface{}` row, as an association list with
insert-or-overwrite semantics (iteration order is never observed by the
formatters, which iterate the column sequence instead). -/
abbrev GoMap := List (String × GoValue)

/-- Go map assignment `m[k] = v`: overwrite if present, append if absent. -/
def mapInsert (m : GoMap) (k : String) (v : GoValue) : GoMap :=
  if m.any (fun p => p.1 == k) then
    m.map (fun p => if p.1 == k then (k, v) else p)
  else m ++ [(k, v)]

/-- The row-building loop of the executors:
`for i, value := range values { row[columnNames[i]] = value }`
(the source indexes `columnNames[i]` and would panic if a record held
more values than there are columns; `zip` truncates instead, and the
length hypothesis of the theorems below rules the case out). -/
def buildRow (columnNames : List String) (values : List GoValue) : GoMap :=
  (columnNames.zip values).foldl (fun row p => mapInsert row p.1 p.2) []

/-- Go `QueryResult`. -/
structure QueryResult where
  Rows : List GoMap
  Columns : List String
  Count : Nat
  Timing : String
  deriving DecidableEq

/-- Go `executeQuery` (pgx variant): log the statement, run it through
the driver, build one row mapping per record and the column sequence
from the result metadata.  A failed `Query` call bumps `QueryErrors`;
the oracle reports whole-result outcomes, so the source's mid-stream
per-row decode failure (which returns early without touching metrics)
is not modelled — no claim depends on it. -/
def executeQuery (db : QueryOracle) (dbElapsedNs : Nat) (query : String)
    (w : GatewayState) : Except String QueryResult × GatewayState :=
  let w1 : GatewayState := { w with dbLog := w.dbLog ++ [query] }
  match db query with
  | Except.error e => (Except.error e, recordError w1)
  | Except.ok (columnNames, records) =>
      let rows := records.map (buildRow columnNames)
      (Except.ok { Rows := rows, Columns := columnNames, Count := rows.length,
                   Timing := goDurStr dbElapsedNs }, recordSuccess dbElapsedNs w1)

/-- Go `fmt.Sprintf("%v", value)` on the modelled value domain
(`%v` of a nil interface prints `<nil>`). -/
def goFormatValue : GoValue → String
  | GoValue.str s => s
  | GoValue.num n => toString n
  | GoValue.bool b => if b then "true" else "false"
  | GoValue.null => "<nil>"

/-- Go `fmt.Sprintf("%-20v", ...)`: left-justify to minimum width 20. -/
def pad20 (s : String) : String :=
  s ++ String.mk (List.replicate (20 - s.length) ' ')

/-- Go `formatResult`: the `No results found.` line for empty result
sets, otherwise the fixed-width text table (header, separator, one line
per row; nil values render as `NULL`). -/
def formatResult (result : QueryResult) : String :=
  if result.Rows.length = 0 then
    "No results found.\nExecution time: " ++ result.Timing
  else
    "Results: " ++ toString result.Count ++ " rows\nExecution time: " ++
      result.Timing ++ "\n\n" ++
    String.intercalate " | " (result.Columns.map pad20) ++ "\n" ++
    String.intercalate "-|-" (result.Columns.map (fun _ => String.mk (List.replicate 20 '-'))) ++ "\n" ++
    String.join (result.Rows.map (fun row =>
      String.intercalate " | " (result.Columns.map (fun col =>
        pad20 (match row.lookup col with
          | some v => if v = GoValue.null then "NULL" else goFormatValue v
          | none => "NULL"))) ++ "\n"))

/-- JSON string escaping for the `json.MarshalIndent` model. -/
def jsonEscape (s : String) : String :=
  String.mk (s.data.foldr (fun c acc =>
    match c with
    | '"' => '\\' :: '"' :: acc
    | '\\' => '\\' :: '\\' :: acc
    | '\n' => '\\' :: 'n' :: acc
    | c => c :: acc) [])

/-- JSON rendering of a value. -/
def goValueJSON : GoValue → String
  | GoValue.str s => "\"" ++ jsonEscape s ++ "\""
  | GoValue.num n => toString n
  | GoValue.bool b => if b then "true" else "false"
  | GoValue.null => "null"

/-- Rendering of `json.MarshalIndent` on a `QueryResult` (struct field
order `rows`, `columns`, `count`, `timing`; indentation simplified to a
single line — no theorem depends on this text, only on its stability). -/
def queryResultJSON (result : QueryResult) : String :=
  "\x7b\"rows\": [" ++
    String.intercalate ", " (result.Rows.map (fun row =>
      "\x7b" ++ String.intercalate ", " (row.map (fun p =>
        "\"" ++ jsonEscape p.1 ++ "\": " ++ goValueJSON p.2)) ++ "\x7d")) ++
  "], \"columns\": [" ++
    String.intercalate ", " (result.Columns.map (fun c => "\"" ++ jsonEscape c ++ "\"")) ++
  "], \"count\": " ++ toString result.Count ++
  ", \"timing\": \"" ++ jsonEscape result.Timing ++ "\"\x7d"

/-- The row-limit injection step of `HandleReadQuery` (lines 471-473):
append ` LIMIT <limit>` unless the uppercased text already contains the
token `LIMIT`. -/
def addLimitClause (query : String) (limit : Int) : String :=
  if !(goContains (goToUpper query) "LIMIT") then
    query ++ " LIMIT " ++ toString limit
  else query

/-- Go `Handlers.HandleReadQuery`: empty-query check, read-only
classification, row-limit injection, execution, formatting. -/
def handleReadQuery (args : GoArgs) (db : QueryOracle) (dbElapsedNs handlerElapsedNs : Nat)
    (w : GatewayState) : MCPResult × GatewayState :=
  let query := getStringParam args "query" ""
  if query = "" then
    let (r, w1) := handleError "query parameter is required" w
    (r, updateMetrics handlerElapsedNs w1)
  else if !(isReadOnlyQuery query) then
    let (r, w1) := handleError "only SELECT queries are allowed in read_query" w
    (r, updateMetrics handlerElapsedNs w1)
  else
    let limit := getNumberParam args "limit" 1000
    let formatJSON := getBoolParam args "format_json" false
    let query := addLimitClause query limit
    match executeQuery db dbElapsedNs query w with
    | (Except.error e, w1) =>
        let (r, w2) := handleError e w1
        (r, updateMetrics handlerElapsedNs w2)
    | (Except.ok result, w1) =>
        if formatJSON then ({ text := queryResultJSON result }, updateMetrics handlerElapsedNs w1)
        else ({ text := formatResult result }, updateMetrics handlerElapsedNs w1)

/-- Go `HandleExplain` (sqlx variant): when the explain-check flag is
on, pre-flight `EXPLAIN <query>` through the driver and report its
error, discarding the plan output (`expect` is accepted and unused,
exactly as in the source). -/
def HandleExplain (withExplainCheck : Bool) (db : QueryOracle) (query expect : String)
    (log : List String) : Option String × List String :=
  if !withExplainCheck then (none, log)
  else
    let stmt := "EXPLAIN " ++ query
    match db stmt with
    | Except.error e => (some e, log ++ [stmt])
    | Except.ok _ => (none, log ++ [stmt])

/-- The `db.Queryx` / row-conversion tail of `DoQuery` (the source's
`[]byte` to `string` normalization is the identity in this value
model). -/
def runQueryCSV (db : QueryOracle) (query : String) (log : List String) :
    Except String (List GoMap × List String) × List String :=
  let log1 := log ++ [query]
  match db query with
  | Except.error e => (Except.error e, log1)
  | Except.ok (cols, records) => (Except.ok (records.map (buildRow cols), cols), log1)

/-- Go `DoQuery`: optional EXPLAIN pre-flight, then the real query. -/
def DoQuery (withExplainCheck : Bool) (db : QueryOracle) (query expect : String)
    (log : List String) : Except String (List GoMap × List String) × List String :=
  if expect.length > 0 && withExplainCheck then
    match HandleExplain withExplainCheck db query expect log with
    | (some e, log1) => (Except.error e, log1)
    | (none, log1) => runQueryCSV db query log1
  else runQueryCSV db query log

/-- The `db.Exec` tail of `HandleExec`. -/
def runExecCSV (db : ExecOracle) (query : String) (log : List String) :
    Except String String × List String :=
  let log1 := log ++ [query]
  match db query with
  | Except.error e => (Except.error e, log1)
  | Except.ok ra => (Except.ok (toString ra ++ " rows affected"), log1)

/-- Go `HandleExec`: optional EXPLAIN pre-flight, then the real
statement through `Exec`. -/
def HandleExec (withExplainCheck : Bool) (dbq : QueryOracle) (dbe : ExecOracle)
    (query expect : String) (log : List String) : Except String String × List String :=
  if expect.length > 0 && withExplainCheck then
    match HandleExplain withExplainCheck dbq query expect log with
    | (some e, log1) => (Except.error e, log1)
    | (none, log1) => runExecCSV dbe query log1
  else runExecCSV dbe query log

/-- Go `encoding/csv` `fieldNeedsQuotes` for the default comma. -/
def fieldNeedsQuotes (field : String) : Bool :=
  if field = "" then false
  else if field = "\\." then true
  else if field.data.any (fun c => c = ',' || c = '"' || c = '\n' || c = '\r') then true
  else match field.data with
    | [] => false
    | c :: _ => c.isWhitespace

/-- Quote doubling inside a quoted CSV field (`UseCRLF = false`, so
carriage returns and newlines pass through unchanged). -/
def csvEscapeChars : List Char → List Char
  | [] => []
  | '"' :: rest => '"' :: '"' :: csvEscapeChars rest
  | c :: rest => c :: csvEscapeChars rest

/-- One CSV field as written by `csv.Writer`. -/
def csvField (field : String) : String :=
  if fieldNeedsQuotes field then
    "\"" ++ String.mk (csvEscapeChars field.data) ++ "\""
  else field

/-- One CSV record as written by `csv.Writer.Write` (terminated by a
newline). -/
def csvLine (fields : List String) : String :=
  String.intercalate "," (fields.map csvField) ++ "\n"

/-- Go `MapToCSV`: header record, then one record per row; a key absent
from a row renders as the empty field.  With the default comma the
writer cannot fail, so the error branch of the source is dead; the
`Except` mirrors the Go signature. -/
def MapToCSV (m : List GoMap) (headers : List String) : Except String String :=
  Except.ok (csvLine headers ++ String.join (m.map (fun item =>
    csvLine (headers.map (fun header =>
      match item.lookup header with
      | none => ""
      | some value => goFormatValue value)))))

/-- Go `HandleQuery`: run `DoQuery` and serialize through `MapToCSV`. -/
def HandleQuery (withExplainCheck : Bool) (db : QueryOracle) (query expect : String)
    (log : List String) : Except String String × List String :=
  match DoQuery withExplainCheck db query expect log with
  | (Except.error e, log1) => (Except.error e, log1)
  | (Except.ok (result, headers), log1) => (MapToCSV result headers, log1)

/-- The `read_query` tool closure of the sqlx variant's `main`: admits
statements whose trimmed, case-folded text starts with `SELECT` or
`WITH` (and no other prefix), injects the row limit, then runs
`HandleQuery` with expected kind `SELECT`. -/
def readQueryToolHandler (withExplainCheck : Bool) (args : GoArgs) (db : QueryOracle)
    (log : List String) : MCPResult × List String :=
  let query := getStringParam args "query" ""
  let limit := getNumberParam args "limit" 1000
  let upperQuery := goToUpper (goTrimSpace query)
  if !(goStartsWith upperQuery "SELECT") && !(goStartsWith upperQuery "WITH") then
    ({ text := "Error: Only SELECT queries are allowed" }, log)
  else
    let query := if !(goContains upperQuery "LIMIT") then
        query ++ " LIMIT " ++ toString limit
      else query
    match HandleQuery withExplainCheck db query "SELECT" log with
    | (Except.error e, log1) => ({ text := "Error: " ++ e }, log1)
    | (Except.ok result, log1) => ({ text := result }, log1)

/-- Shallow model of a Go `float64` as produced by the stats handlers:
a finite rational, NaN, or positive infinity (all numerators in the
program are nonnegative, so negative infinity cannot arise). -/
inductive GoFloat where
  | finite (q : ℚ)
  | nan
  | posInf
  deriving DecidableEq

/-- Go float division `float64(a) / float64(b)` on nonnegative
naturals: `0/0` is NaN, `a/0` with `a > 0` is `+Inf`. -/
def goDivNat (a b : Nat) : GoFloat :=
  if b = 0 then (if a = 0 then GoFloat.nan else GoFloat.posInf)
  else GoFloat.finite ((a : ℚ) / (b : ℚ))

/-- Division of a Go float by a positive constant (the `/ 1000000`
nanosecond-to-millisecond conversion): NaN and infinity propagate. -/
def goFloatDivPos (x : GoFloat) (c : ℚ) : GoFloat :=
  match x with
  | GoFloat.finite q => GoFloat.finite (q / c)
  | other => other

/-- The `avg_response_time_ms` entry of the combined-source
`handleGetStats`: computed unconditionally as
`float64(TotalResponseTime.Nanoseconds()) / float64(QueriesExecuted) / 1000000`. -/
def avgResponseTimeMsUnguarded (m : ServerMetrics) : GoFloat :=
  goFloatDivPos (goDivNat m.TotalResponseTime m.QueriesExecuted) 1000000

/-- The `avg_response_time_ms` entry of `Handlers.HandleGetStats`: the
key is set only when `QueriesExecuted > 0`; `none` means the snapshot
omits the field entirely. -/
def avgResponseTimeMsGuarded (m : ServerMetrics) : Option GoFloat :=
  if m.QueriesExecuted > 0 then
    some (goFloatDivPos (goDivNat m.TotalResponseTime m.QueriesExecuted) 1000000)
  else none

/-- Sample inputs shared by the concrete witnesses below. -/
def emptyMetrics : ServerMetrics := { QueriesExecuted := 0, QueryErrors := 0, ConnectionsActive := 0, TotalResponseTime := 0 }

/-- Gateway state with all counters zero and an empty execution log. -/
def emptyState : GatewayState := { metrics := emptyMetrics, dbLog := [] }

/-- A driver oracle whose every `Exec` succeeds affecting zero rows. -/
def okExec : ExecOracle := fun _ => Except.ok 0

/-- C4: when the server-wide read-only flag is set, every mutating
operation (write_query, update_query, delete_query, create_table,
alter_table, create_index, drop_index, analyze_table) is rejected
unconditionally — for every argument mapping, so regardless of
WHERE-clause presence or the force flag — with the read-only error (not
the WHERE-clause error, showing the mode check precedes the clause
check), no statement reaches the database, and only the error counter
moves (the deferred handler-time update is registered after the check
and never runs). -/
theorem C4_readonly_rejects_all_mutations (args : GoArgs) (db : ExecOracle)
    (d h : Nat) (w : GatewayState) :
    handleWriteQuery true args db d h w = ({ text := "Error: server is in read-only mode" }, recordError w) ∧
    handleUpdateQuery true args db d h w = ({ text := "Error: server is in read-only mode" }, recordError w) ∧
    handleDeleteQuery true args db d h w = ({ text := "Error: server is in read-only mode" }, recordError w) ∧
    handleCreateTable true args db d h w = ({ text := "Error: server is in read-only mode" }, recordError w) ∧
    handleAlterTable true args db d h w = ({ text := "Error: server is in read-only mode" }, recordError w) ∧
    handleCreateIndex true args db d h w = ({ text := "Error: server is in read-only mode" }, recordError w) ∧
    handleDropIndex true args db d h w = ({ text := "Error: server is in read-only mode" }, recordError w) ∧
    handleAnalyzeTable true args db d h w = ({ text := "Error: server is in read-only mode" }, recordError w) :=
  ⟨rfl, rfl, rfl, rfl, rfl, rfl, rfl, rfl⟩

/-- C2: for every update_query or delete_query request whose statement
text does not contain the case-insensitive token WHERE and whose force
flag is unset, the request is rejected with a validation error, no
database call is made, query_errors is incremented, and
queries_executed is unchanged. -/
theorem C2_where_gate_rejects (args : GoArgs) (db : ExecOracle) (d h : Nat)
    (w : GatewayState) (q : String)
    (hq : getStringParam args "query" "" = q) (hq0 : q ≠ "")
    (hforce : getBoolParam args "force" false = false)
    (hwhere : goContains (goToUpper q) "WHERE" = false) :
    ((handleUpdateQuery false args db d h w).1.text =
        "Error: UPDATE queries must include a WHERE clause. Use force=true to override" ∧
      (handleUpdateQuery false args db d h w).2.dbLog = w.dbLog ∧
      (handleUpdateQuery false args db d h w).2.metrics.QueryErrors = w.metrics.QueryErrors + 1 ∧
      (handleUpdateQuery false args db d h w).2.metrics.QueriesExecuted = w.metrics.QueriesExecuted) ∧
    ((handleDeleteQuery false args db d h w).1.text =
        "Error: DELETE queries must include a WHERE clause. Use force=true to override" ∧
      (handleDeleteQuery false args db d h w).2.dbLog = w.dbLog ∧
      (handleDeleteQuery false args db d h w).2.metrics.QueryErrors = w.metrics.QueryErrors + 1 ∧
      (handleDeleteQuery false args db d h w).2.metrics.QueriesExecuted = w.metrics.QueriesExecuted) := by
  have hu : handleUpdateQuery false args db d h w =
      ({ text := "Error: UPDATE queries must include a WHERE clause. Use force=true to override" },
        updateMetrics h (recordError w)) := by
    simp [handleUpdateQuery, hq, hq0, hforce, hwhere, handleError]
  have hd : handleDeleteQuery false args db d h w =
      ({ text := "Error: DELETE queries must include a WHERE clause. Use force=true to override" },
        updateMetrics h (recordError w)) := by
    simp [handleDeleteQuery, hq, hq0, hforce, hwhere, handleError]
  rw [hu, hd]
  simp [updateMetrics, recordError]

/-- Concrete witness for C2: `update_query("UPDATE t SET x=1")` with
`force` absent, starting from zero counters. -/
theorem C2_witness :
    (handleUpdateQuery false [("query", GoValue.str "UPDATE t SET x=1")] okExec 0 0 emptyState).2.dbLog = emptyState.dbLog ∧
    (handleUpdateQuery false [("query", GoValue.str "UPDATE t SET x=1")] okExec 0 0 emptyState).2.metrics.QueryErrors = emptyState.metrics.QueryErrors + 1 ∧
    (handleUpdateQuery false [("query", GoValue.str "UPDATE t SET x=1")] okExec 0 0 emptyState).2.metrics.QueriesExecuted = emptyState.metrics.QueriesExecuted := by
  have h := C2_where_gate_rejects [("query", GoValue.str "UPDATE t SET x=1")] okExec 0 0 emptyState
    "UPDATE t SET x=1" (by decide) (by decide) (by decide) (by decide)
  exact ⟨h.1.2.1, h.1.2.2.1, h.1.2.2.2⟩

/-- C3 is false as stated: on the WHERE-gate rejection path the
deferred `updateMetrics` still adds the handler's elapsed wall-clock
time (here 5 ns) to the cumulative response-time accumulator, so the
accumulator does not stay unchanged. -/
theorem C3_counterexample :
    (handleUpdateQuery false [("query", GoValue.str "UPDATE t SET x=1")] okExec 0 5 emptyState).2.metrics.TotalResponseTime = 5 ∧
    ¬ ((handleUpdateQuery false [("query", GoValue.str "UPDATE t SET x=1")] okExec 0 5 emptyState).2.metrics.TotalResponseTime
        = emptyState.metrics.TotalResponseTime) := by
  decide

/-- C3 (amended): when an update_query or delete_query request is
rejected by the WHERE-clause safety gate, no query-execution latency is
recorded — no database call happens, so the executor's success-path
timing never runs — but the deferred handler-level metrics update still
adds the handler's own elapsed time to the cumulative response-time
accumulator (which is therefore unchanged exactly when that elapsed
time is zero); the error counter increments and queries_executed is
unchanged. -/
theorem C3_amended_no_query_latency (args : GoArgs) (db : ExecOracle) (d h : Nat)
    (w : GatewayState) (q : String)
    (hq : getStringParam args "query" "" = q) (hq0 : q ≠ "")
    (hforce : getBoolParam args "force" false = false)
    (hwhere : goContains (goToUpper q) "WHERE" = false) :
    ((handleUpdateQuery false args db d h w).2.metrics.TotalResponseTime =
        w.metrics.TotalResponseTime + h ∧
      (handleUpdateQuery false args db d h w).2.dbLog = w.dbLog ∧
      (handleUpdateQuery false args db d h w).2.metrics.QueryErrors = w.metrics.QueryErrors + 1 ∧
      (handleUpdateQuery false args db d h w).2.metrics.QueriesExecuted = w.metrics.QueriesExecuted) ∧
    ((handleDeleteQuery false args db d h w).2.metrics.TotalResponseTime =
        w.metrics.TotalResponseTime + h ∧
      (handleDeleteQuery false args db d h w).2.dbLog = w.dbLog ∧
      (handleDeleteQuery false args db d h w).2.metrics.QueryErrors = w.metrics.QueryErrors + 1 ∧
      (handleDeleteQuery false args db d h w).2.metrics.QueriesExecuted = w.metrics.QueriesExecuted) := by
  have hu : handleUpdateQuery false args db d h w =
      ({ text := "Error: UPDATE queries must include a WHERE clause. Use force=true to override" },
        updateMetrics h (recordError w)) := by
    simp [handleUpdateQuery, hq, hq0, hforce, hwhere, handleError]
  have hd : handleDeleteQuery false args db d h w =
      ({ text := "Error: DELETE queries must include a WHERE clause. Use force=true to override" },
        updateMetrics h (recordError w)) := by
    simp [handleDeleteQuery, hq, hq0, hforce, hwhere, handleError]
  rw [hu, hd]
  simp [updateMetrics, recordError]

/-- Concrete witness for the amended C3: a 7 ns handler duration lands
in the accumulator even though the database is never called. -/
theorem C3_amended_witness :
    (handleUpdateQuery false [("query", GoValue.str "DELETE FROM t")] okExec 0 7 emptyState).2.metrics.TotalResponseTime =
      emptyState.metrics.TotalResponseTime + 7 ∧
    (handleUpdateQuery false [("query", GoValue.str "DELETE FROM t")] okExec 0 7 emptyState).2.dbLog = emptyState.dbLog := by
  have h := C3_amended_no_query_latency [("query", GoValue.str "DELETE FROM t")] okExec 0 7 emptyState
    "DELETE FROM t" (by decide) (by decide) (by decide) (by decide)
  exact ⟨h.1.1, h.1.2.1⟩

/-- The pgx executor always hands exactly its statement to the driver. -/
theorem executeQuery_log (db : QueryOracle) (d : Nat) (s : String) (w : GatewayState) :
    (executeQuery db d s w).2.dbLog = w.dbLog ++ [s] := by
  cases hdb : db s with
  | error e => simp [executeQuery, hdb, recordError]
  | ok pr => rcases pr with ⟨cols, recs⟩; simp [executeQuery, hdb, recordSuccess]

/-- Execution-log shape of `HandleReadQuery`: nothing is logged on the
two rejection paths; on admission exactly the limit-adjusted statement
is logged. -/
theorem handleReadQuery_dbLog (args : GoArgs) (db : QueryOracle) (d h : Nat)
    (w : GatewayState) :
    (handleReadQuery args db d h w).2.dbLog =
      if getStringParam args "query" "" = "" then w.dbLog
      else if isReadOnlyQuery (getStringParam args "query" "") then
        w.dbLog ++ [addLimitClause (getStringParam args "query" "") (getNumberParam args "limit" 1000)]
      else w.dbLog := by
  by_cases hq0 : getStringParam args "query" "" = ""
  · simp [handleReadQuery, hq0, handleError, recordError, updateMetrics]
  · by_cases hro : isReadOnlyQuery (getStringParam args "query" "")
    · rcases hE : executeQuery db d (addLimitClause (getStringParam args "query" "") (getNumberParam args "limit" 1000)) w with ⟨res, w1⟩
      have hw1 : w1.dbLog = w.dbLog ++ [addLimitClause (getStringParam args "query" "") (getNumberParam args "limit" 1000)] := by
        have h2 := executeQuery_log db d (addLimitClause (getStringParam args "query" "") (getNumberParam args "limit" 1000)) w
        rw [hE] at h2
        exact h2
      cases res with
      | error e =>
        simp [handleReadQuery, hq0, hro, hE, handleError, recordError, updateMetrics, hw1]
      | ok result =>
        by_cases hfj : getBoolParam args "format_json" false
        all_goals simp [handleReadQuery, hq0, hro, hE, hfj, updateMetrics, hw1]
    · simp [handleReadQuery, hq0, hro, handleError, recordError, updateMetrics]

/-- `runQueryCSV` always hands exactly its statement to the driver. -/
theorem runQueryCSV_log (db : QueryOracle) (q : String) (log : List String) :
    (runQueryCSV db q log).2 = log ++ [q] := by
  cases hdb : db q with
  | error e => simp [runQueryCSV, hdb]
  | ok pr => rcases pr with ⟨cols, recs⟩; simp [runQueryCSV, hdb]

/-- `DoQuery` always hands at least one statement to the driver. -/
theorem DoQuery_log_grows (wec : Bool) (db : QueryOracle) (q e : String)
    (log : List String) : log.length < ((DoQuery wec db q e log).2).length := by
  by_cases hc : (decide (e.length > 0) && wec) = true
  · have hwec : wec = true := by
      cases wec
      · simp at hc
      · rfl
    have he : 0 < e.length := by
      cases hd : decide (e.length > 0)
      · rw [hd] at hc; simp at hc
      · exact of_decide_eq_true hd
    cases hdb : db ("EXPLAIN " ++ q) with
    | error err =>
      have h2 : (DoQuery wec db q e log).2 = log ++ ["EXPLAIN " ++ q] := by
        simp [DoQuery, hc, hwec, he, HandleExplain, hdb]
      rw [h2]
      simp only [List.length_append, List.length_cons, List.length_nil]
      omega
    | ok pr =>
      have h2 : (DoQuery wec db q e log).2 = (runQueryCSV db q (log ++ ["EXPLAIN " ++ q])).2 := by
        simp [DoQuery, hc, hwec, he, HandleExplain, hdb]
      rw [h2, runQueryCSV_log]
      simp only [List.length_append, List.length_cons, List.length_nil]
      omega
  · have h2 : (DoQuery wec db q e log).2 = (runQueryCSV db q log).2 := by
      simp [DoQuery, hc]
    rw [h2, runQueryCSV_log]
    simp only [List.length_append, List.length_cons, List.length_nil]
    omega

/-- `HandleQuery` logs exactly what `DoQuery` logs. -/
theorem HandleQuery_log (wec : Bool) (db : QueryOracle) (q e : String)
    (log : List String) : (HandleQuery wec db q e log).2 = (DoQuery wec db q e log).2 := by
  rcases hD : DoQuery wec db q e log with ⟨res, log1⟩
  cases res with
  | error err => simp [HandleQuery, hD]
  | ok pr => rcases pr with ⟨result, headers⟩; simp [HandleQuery, hD]

/-- `HandleQuery` always hands at least one statement to the driver. -/
theorem HandleQuery_log_grows (wec : Bool) (db : QueryOracle) (q e : String)
    (log : List String) : log.length < ((HandleQuery wec db q e log).2).length := by
  rw [HandleQuery_log]
  exact DoQuery_log_grows wec db q e log

/-- A driver oracle whose every query succeeds with an empty result. -/
def okQuery : QueryOracle := fun _ => Except.ok ([], [])

/-- C1 (amended): in the primary read_query handler
(`Handlers.HandleReadQuery`), a statement is admitted to the read path
— i.e. a statement reaches the Executor — if and only if its text,
after trimming whitespace and case-folding, begins with SELECT, WITH or
EXPLAIN, and on failure of that test it is rejected with a validation
error before any database call; the sqlx variant's read_query tool
instead admits if and only if the trimmed, case-folded text begins with
SELECT or WITH, so EXPLAIN-prefixed statements are rejected there. -/
theorem C1_read_admission_amended (args : GoArgs) (db : QueryOracle) (d h : Nat)
    (w : GatewayState) (wec : Bool) (log : List String) (q : String)
    (hq : getStringParam args "query" "" = q) :
    ((∃ s, (handleReadQuery args db d h w).2.dbLog = w.dbLog ++ [s]) ↔
      (goStartsWith (goToUpper (goTrimSpace q)) "SELECT" = true ∨
       goStartsWith (goToUpper (goTrimSpace q)) "WITH" = true ∨
       goStartsWith (goToUpper (goTrimSpace q)) "EXPLAIN" = true)) ∧
    (isReadOnlyQuery q = false →
      (handleReadQuery args db d h w).2.dbLog = w.dbLog ∧
      goStartsWith (handleReadQuery args db d h w).1.text "Error: " = true) ∧
    ((readQueryToolHandler wec args db log).2 ≠ log ↔
      (goStartsWith (goToUpper (goTrimSpace q)) "SELECT" = true ∨
       goStartsWith (goToUpper (goTrimSpace q)) "WITH" = true)) := by
  subst hq
  have hiff : isReadOnlyQuery (getStringParam args "query" "") = true ↔
      (goStartsWith (goToUpper (goTrimSpace (getStringParam args "query" ""))) "SELECT" = true ∨
       goStartsWith (goToUpper (goTrimSpace (getStringParam args "query" ""))) "WITH" = true ∨
       goStartsWith (goToUpper (goTrimSpace (getStringParam args "query" ""))) "EXPLAIN" = true) := by
    simp [isReadOnlyQuery, Bool.or_eq_true, or_assoc]
  refine ⟨?_, ?_, ?_⟩
  · constructor
    · rintro ⟨s, hs⟩
      by_cases hq0 : getStringParam args "query" "" = ""
      · rw [handleReadQuery_dbLog, if_pos hq0] at hs
        exact absurd (congrArg List.length hs) (by simp)
      · by_cases hro : isReadOnlyQuery (getStringParam args "query" "") = true
        · exact hiff.mp hro
        · rw [handleReadQuery_dbLog, if_neg hq0, if_neg hro] at hs
          exact absurd (congrArg List.length hs) (by simp)
    · intro hdisj
      have hro : isReadOnlyQuery (getStringParam args "query" "") = true := hiff.mpr hdisj
      have hq0 : getStringParam args "query" "" ≠ "" := by
        intro h0
        rw [h0] at hro
        exact absurd hro (by decide)
      exact ⟨_, by rw [handleReadQuery_dbLog, if_neg hq0, if_pos hro]⟩
  · intro hro
    have hro' : ¬ (isReadOnlyQuery (getStringParam args "query" "") = true) := by simp [hro]
    constructor
    · rw [handleReadQuery_dbLog]
      by_cases hq0 : getStringParam args "query" "" = ""
      · rw [if_pos hq0]
      · rw [if_neg hq0, if_neg hro']
    · by_cases hq0 : getStringParam args "query" "" = ""
      · have hres : (handleReadQuery args db d h w).1 =
            { text := "Error: " ++ "query parameter is required" } := by
          simp [handleReadQuery, hq0, handleError]
        rw [hres]
        decide
      · have hres : (handleReadQuery args db d h w).1 =
            { text := "Error: " ++ "only SELECT queries are allowed in read_query" } := by
          simp [handleReadQuery, hq0, hro, handleError]
        rw [hres]
        decide
  · constructor
    · intro hne
      by_contra hnot
      push_neg at hnot
      obtain ⟨hS, hW⟩ := hnot
      have hS' : goStartsWith (goToUpper (goTrimSpace (getStringParam args "query" ""))) "SELECT" = false := by
        cases hv : goStartsWith (goToUpper (goTrimSpace (getStringParam args "query" ""))) "SELECT"
        · rfl
        · exact absurd hv hS
      have hW' : goStartsWith (goToUpper (goTrimSpace (getStringParam args "query" ""))) "WITH" = false := by
        cases hv : goStartsWith (goToUpper (goTrimSpace (getStringParam args "query" ""))) "WITH"
        · rfl
        · exact absurd hv hW
      exact hne (by simp [readQueryToolHandler, hS', hW'])
    · intro hadm
      have hcond : (!(goStartsWith (goToUpper (goTrimSpace (getStringParam args "query" ""))) "SELECT") &&
          !(goStartsWith (goToUpper (goTrimSpace (getStringParam args "query" ""))) "WITH")) = false := by
        rcases hadm with hv | hv <;> simp [hv]
      have h2 : (readQueryToolHandler wec args db log).2 =
          (HandleQuery wec db
            (if goContains (goToUpper (goTrimSpace (getStringParam args "query" ""))) "LIMIT" = false then
              getStringParam args "query" "" ++ " LIMIT " ++ toString (getNumberParam args "limit" 1000)
            else getStringParam args "query" "") "SELECT" log).2 := by
        rcases hH : HandleQuery wec db
            (if goContains (goToUpper (goTrimSpace (getStringParam args "query" ""))) "LIMIT" = false then
              getStringParam args "query" "" ++ " LIMIT " ++ toString (getNumberParam args "limit" 1000)
            else getStringParam args "query" "") "SELECT" log with ⟨res, log1⟩
        cases res with
        | error e => simp [readQueryToolHandler, hcond, hH]
        | ok r => simp [readQueryToolHandler, hcond, hH]
      rw [h2]
      intro heq
      have hg := HandleQuery_log_grows wec db
        (if goContains (goToUpper (goTrimSpace (getStringParam args "query" ""))) "LIMIT" = false then
          getStringParam args "query" "" ++ " LIMIT " ++ toString (getNumberParam args "limit" 1000)
        else getStringParam args "query" "") "SELECT" log
      rw [heq] at hg
      exact lt_irrefl _ hg

/-- C1 is false as stated: the sqlx variant's read_query tool rejects
`EXPLAIN SELECT 1` without any database call even though its trimmed,
case-folded text begins with EXPLAIN. -/
theorem C1_counterexample :
    goStartsWith (goToUpper (goTrimSpace "EXPLAIN SELECT 1")) "EXPLAIN" = true ∧
    (readQueryToolHandler false [("query", GoValue.str "EXPLAIN SELECT 1")] okQuery []).1.text =
      "Error: Only SELECT queries are allowed" ∧
    (readQueryToolHandler false [("query", GoValue.str "EXPLAIN SELECT 1")] okQuery []).2 = [] := by
  decide

/-- Concrete witness for the amended C1: `SELECT 1` is admitted by both
variants. -/
theorem C1_witness :
    (∃ s, (handleReadQuery [("query", GoValue.str "SELECT 1")] okQuery 0 0 emptyState).2.dbLog =
      emptyState.dbLog ++ [s]) ∧
    (readQueryToolHandler false [("query", GoValue.str "SELECT 1")] okQuery []).2 ≠ [] := by
  have h := C1_read_admission_amended [("query", GoValue.str "SELECT 1")] okQuery 0 0 emptyState
    false [] "SELECT 1" (by decide)
  exact ⟨h.1.mpr (Or.inl (by decide)), h.2.2.mpr (Or.inl (by decide))⟩

/-- C6: for every admitted read_query statement, if the uppercased
statement text does not contain the token LIMIT, the handler hands the
Executor the statement with ` LIMIT n` appended, where n is the
caller-supplied limit (1000 by default); if the text already contains
LIMIT anywhere (case-insensitive), the statement reaches the Executor
unchanged. -/
theorem C6_limit_injection (args : GoArgs) (db : QueryOracle) (d h : Nat)
    (w : GatewayState) (q : String) (lim : Int)
    (hq : getStringParam args "query" "" = q) (hq0 : q ≠ "")
    (hro : isReadOnlyQuery q = true)
    (hlim : getNumberParam args "limit" 1000 = lim) :
    (goContains (goToUpper q) "LIMIT" = false →
      (handleReadQuery args db d h w).2.dbLog = w.dbLog ++ [q ++ " LIMIT " ++ toString lim]) ∧
    (goContains (goToUpper q) "LIMIT" = true →
      (handleReadQuery args db d h w).2.dbLog = w.dbLog ++ [q]) := by
  subst hq
  subst hlim
  constructor <;> intro hc <;>
    rw [handleReadQuery_dbLog, if_neg hq0, if_pos hro] <;>
    simp [addLimitClause, hc]

/-- Concrete witness for C6: with no limit argument, the default 1000
is appended; a statement already containing LIMIT passes unchanged. -/
theorem C6_witness :
    (handleReadQuery [("query", GoValue.str "SELECT * FROM t")] okQuery 0 0 emptyState).2.dbLog =
      emptyState.dbLog ++ ["SELECT * FROM t LIMIT 1000"] ∧
    (handleReadQuery [("query", GoValue.str "SELECT * FROM t LIMIT 5")] okQuery 0 0 emptyState).2.dbLog =
      emptyState.dbLog ++ ["SELECT * FROM t LIMIT 5"] := by
  have h1 := C6_limit_injection [("query", GoValue.str "SELECT * FROM t")] okQuery 0 0 emptyState
    "SELECT * FROM t" 1000 (by decide) (by decide) (by decide) (by decide)
  have h2 := C6_limit_injection [("query", GoValue.str "SELECT * FROM t LIMIT 5")] okQuery 0 0 emptyState
    "SELECT * FROM t LIMIT 5" 1000 (by decide) (by decide) (by decide) (by decide)
  constructor
  · rw [h1.1 (by decide)]
    decide
  · exact h2.2 (by decide)

/-- The exec path always hands exactly its statement to the driver. -/
theorem runExecCSV_log (db : ExecOracle) (q : String) (log : List String) :
    (runExecCSV db q log).2 = log ++ [q] := by
  cases hdb : db q with
  | error e => simp [runExecCSV, hdb]
  | ok ra => simp [runExecCSV, hdb]

/-- C5: when the explain-check option is enabled and the request
declares a non-empty expected statement kind, an EXPLAIN of the
statement runs before the real statement (on success the log shows the
EXPLAIN strictly first); if that EXPLAIN fails, its error is surfaced
to the caller and the real statement is never executed — only the
EXPLAIN ever reached the driver — on both the query and the exec
paths. -/
theorem C5_explain_preflight (dbq : QueryOracle) (dbe : ExecOracle)
    (q expect : String) (log : List String) (hexp : expect.length > 0) :
    (∀ e, dbq ("EXPLAIN " ++ q) = Except.error e →
      DoQuery true dbq q expect log = (Except.error e, log ++ ["EXPLAIN " ++ q]) ∧
      HandleExec true dbq dbe q expect log = (Except.error e, log ++ ["EXPLAIN " ++ q])) ∧
    (∀ pr, dbq ("EXPLAIN " ++ q) = Except.ok pr →
      (DoQuery true dbq q expect log).2 = log ++ ["EXPLAIN " ++ q, q] ∧
      (HandleExec true dbq dbe q expect log).2 = log ++ ["EXPLAIN " ++ q, q]) := by
  constructor
  · intro e hdb
    constructor
    · simp [DoQuery, hexp, HandleExplain, hdb]
    · simp [HandleExec, hexp, HandleExplain, hdb]
  · intro pr hdb
    constructor
    · have h1 : DoQuery true dbq q expect log = runQueryCSV dbq q (log ++ ["EXPLAIN " ++ q]) := by
        simp [DoQuery, hexp, HandleExplain, hdb]
      rw [h1, runQueryCSV_log, List.append_assoc]
      rfl
    · have h1 : HandleExec true dbq dbe q expect log = runExecCSV dbe q (log ++ ["EXPLAIN " ++ q]) := by
        simp [HandleExec, hexp, HandleExplain, hdb]
      rw [h1, runExecCSV_log, List.append_assoc]
      rfl

/-- A driver whose planner rejects `EXPLAIN DELETE FROM t` and accepts
everything else. -/
def failingExplainDB : QueryOracle := fun s =>
  if s = "EXPLAIN DELETE FROM t" then Except.error "syntax error" else Except.ok ([], [])

/-- Concrete witness for C5: with the explain check enabled, a
statement whose EXPLAIN fails never reaches the driver itself. -/
theorem C5_witness :
    DoQuery true failingExplainDB "DELETE FROM t" "DELETE" [] =
      (Except.error "syntax error", ["EXPLAIN DELETE FROM t"]) ∧
    HandleExec true failingExplainDB okExec "DELETE FROM t" "DELETE" [] =
      (Except.error "syntax error", ["EXPLAIN DELETE FROM t"]) := by
  have h := (C5_explain_preflight failingExplainDB okExec "DELETE FROM t" "DELETE" []
    (by decide)).1 "syntax error" (by decide)
  exact h

/-- C8 is false as stated: on an empty result set the CSV encoding
emits the bare header record with no "no results" line and no elapsed
time. -/
theorem C8_counterexample :
    MapToCSV [] ["id"] = Except.ok "id\n" ∧
    goContains "id\n" "No results" = false := by
  decide

/-- C8 (amended): for every formatting call on an empty result set, the
text-table encoding yields the single "No results found." line carrying
the elapsed time, but the CSV encoding instead yields exactly the bare
header record, with no "no results" line and no elapsed time. -/
theorem C8_empty_result_rendering (qr : QueryResult) (hempty : qr.Rows = [])
    (headers : List String) :
    formatResult qr = "No results found.\nExecution time: " ++ qr.Timing ∧
    MapToCSV [] headers = Except.ok (csvLine headers) := by
  constructor
  · simp [formatResult, hempty]
  · simp [MapToCSV, String.join, String.append_empty]

/-- Concrete witness for the amended C8. -/
theorem C8_witness :
    formatResult { Rows := [], Columns := ["id"], Count := 0, Timing := "1ms" } =
      "No results found.\nExecution time: 1ms" ∧
    MapToCSV [] ["id"] = Except.ok (csvLine ["id"]) := by
  have h := C8_empty_result_rendering
    { Rows := [], Columns := ["id"], Count := 0, Timing := "1ms" } rfl ["id"]
  refine ⟨?_, h.2⟩
  rw [h.1]
  decide

/-- The key list of a row mapping. -/
def goMapKeys (m : GoMap) : List String := m.map Prod.fst

/-- Key membership after one Go map assignment. -/
theorem mem_goMapKeys_mapInsert (m : GoMap) (k k' : String) (v : GoValue) :
    k' ∈ goMapKeys (mapInsert m k v) ↔ k' ∈ goMapKeys m ∨ k' = k := by
  by_cases hkk : k' = k
  · subst hkk
    simp only [or_true, iff_true]
    unfold mapInsert goMapKeys
    by_cases hmem : m.any (fun p => p.1 == k') = true
    · rw [if_pos hmem]
      rcases List.any_eq_true.mp hmem with ⟨p, hp, hpk⟩
      simp only [List.map_map, List.mem_map, Function.comp]
      exact ⟨p, hp, by simp [hpk]⟩
    · rw [if_neg hmem]
      simp
  · simp only [hkk, or_false]
    unfold mapInsert goMapKeys
    by_cases hmem : m.any (fun p => p.1 == k) = true
    · rw [if_pos hmem]
      simp only [List.map_map, List.mem_map, Function.comp]
      constructor
      · rintro ⟨p, hp, hpe⟩
        by_cases hpk : (p.1 == k) = true
        · exfalso
          simp [hpk] at hpe
          exact hkk hpe.symm
        · simp only [Bool.not_eq_true] at hpk
          simp [hpk] at hpe
          exact ⟨p, hp, hpe⟩
      · rintro ⟨p, hp, hpe⟩
        have hpk : (p.1 == k) = false := by
          rw [hpe]
          exact beq_eq_false_iff_ne.mpr hkk
        exact ⟨p, hp, by simp [hpk, hpe, hkk]⟩
    · rw [if_neg hmem]
      simp [hkk]

/-- Key membership of the row-building fold. -/
theorem mem_goMapKeys_buildRow_fold (ps : List (String × GoValue)) (m : GoMap) (k : String) :
    k ∈ goMapKeys (ps.foldl (fun row p => mapInsert row p.1 p.2) m) ↔
      k ∈ goMapKeys m ∨ k ∈ ps.map Prod.fst := by
  induction ps generalizing m with
  | nil => simp
  | cons p ps ih =>
    rw [List.foldl_cons, ih, mem_goMapKeys_mapInsert]
    simp only [List.map_cons, List.mem_cons]
    constructor
    · rintro ((hm | he) | hp)
      · exact Or.inl hm
      · exact Or.inr (Or.inl he)
      · exact Or.inr (Or.inr hp)
    · rintro (hm | he | hp)
      · exact Or.inl (Or.inl hm)
      · exact Or.inl (Or.inr he)
      · exact Or.inr hp

/-- The key set of a built row is exactly the column set, provided the
record holds one value per column. -/
theorem buildRow_keys (cols : List String) (vals : List GoValue)
    (hlen : cols.length ≤ vals.length) :
    (goMapKeys (buildRow cols vals)).toFinset = cols.toFinset := by
  apply Finset.ext
  intro k
  simp only [List.mem_toFinset]
  unfold buildRow
  rw [mem_goMapKeys_buildRow_fold, List.map_fst_zip cols vals hlen]
  simp [goMapKeys]

/-- C9: every QueryResult produced by query execution satisfies the
structural invariant: each row's key set equals the set of columns
derived from the result metadata, and the reported row count equals the
number of rows — for the pgx executor and the sqlx query path alike
(the hypothesis is the driver guarantee that every record carries one
value per column). -/
theorem C9_query_result_invariant (db : QueryOracle) (d : Nat) (s : String)
    (w : GatewayState) (log : List String) (cols : List String)
    (recs : List (List GoValue))
    (hdb : db s = Except.ok (cols, recs))
    (hlen : ∀ r ∈ recs, r.length = cols.length) :
    (∃ qr, (executeQuery db d s w).1 = Except.ok qr ∧
      qr.Columns = cols ∧ qr.Count = qr.Rows.length ∧
      ∀ row ∈ qr.Rows, (goMapKeys row).toFinset = cols.toFinset) ∧
    (∃ rows, (runQueryCSV db s log).1 = Except.ok (rows, cols) ∧
      ∀ row ∈ rows, (goMapKeys row).toFinset = cols.toFinset) := by
  have hkeys : ∀ row ∈ recs.map (buildRow cols), (goMapKeys row).toFinset = cols.toFinset := by
    intro row hrow
    rcases List.mem_map.mp hrow with ⟨r, hr, hre⟩
    subst hre
    exact buildRow_keys cols r (le_of_eq (hlen r hr).symm)
  constructor
  · have hq : (executeQuery db d s w).1 = Except.ok
        { Rows := recs.map (buildRow cols), Columns := cols,
          Count := (recs.map (buildRow cols)).length, Timing := goDurStr d } := by
      simp [executeQuery, hdb]
    exact ⟨_, hq, rfl, rfl, hkeys⟩
  · refine ⟨recs.map (buildRow cols), ?_, hkeys⟩
    simp [runQueryCSV, hdb]

/-- A driver returning a two-column, one-row result. -/
def twoColDB : QueryOracle := fun _ =>
  Except.ok (["a", "b"], [[GoValue.num 1, GoValue.str "x"]])

/-- Concrete witness for C9. -/
theorem C9_witness :
    ∃ qr, (executeQuery twoColDB 0 "SELECT a, b FROM t" emptyState).1 = Except.ok qr ∧
      qr.Columns = ["a", "b"] ∧ qr.Count = qr.Rows.length ∧
      ∀ row ∈ qr.Rows, (goMapKeys row).toFinset = (["a", "b"] : List String).toFinset :=
  (C9_query_result_invariant twoColDB 0 "SELECT a, b FROM t" emptyState []
    ["a", "b"] [[GoValue.num 1, GoValue.str "x"]] rfl (by decide)).1

/-- C7 is false as stated: with `queries_executed = 0` the unguarded
stats handler divides by zero (NaN for a zero accumulator, +Inf
otherwise) and the guarded handler omits the average field — neither
reports the average as zero. -/
theorem C7_counterexample :
    avgResponseTimeMsUnguarded
      { QueriesExecuted := 0, QueryErrors := 0, ConnectionsActive := 0, TotalResponseTime := 0 } = GoFloat.nan ∧
    avgResponseTimeMsUnguarded
      { QueriesExecuted := 0, QueryErrors := 0, ConnectionsActive := 0, TotalResponseTime := 7 } = GoFloat.posInf ∧
    avgResponseTimeMsUnguarded
      { QueriesExecuted := 0, QueryErrors := 0, ConnectionsActive := 0, TotalResponseTime := 0 } ≠ GoFloat.finite 0 ∧
    avgResponseTimeMsGuarded
      { QueriesExecuted := 0, QueryErrors := 0, ConnectionsActive := 0, TotalResponseTime := 0 } = none := by
  refine ⟨rfl, rfl, ?_, rfl⟩
  intro h
  exact GoFloat.noConfusion h

/-- C7 (amended): whenever `queries_executed > 0`, both get_stats
variants report the average as cumulative response time divided by
queries_executed (converted to milliseconds); when `queries_executed`
is zero, the guarded variant omits the average field entirely and the
unguarded variant produces a non-finite float (NaN when the accumulator
is zero, +Inf otherwise) — neither reports zero. -/
theorem C7_average_response_time (m : ServerMetrics) :
    (m.QueriesExecuted > 0 →
      avgResponseTimeMsUnguarded m =
        GoFloat.finite ((m.TotalResponseTime : ℚ) / (m.QueriesExecuted : ℚ) / 1000000) ∧
      avgResponseTimeMsGuarded m =
        some (GoFloat.finite ((m.TotalResponseTime : ℚ) / (m.QueriesExecuted : ℚ) / 1000000))) ∧
    (m.QueriesExecuted = 0 →
      avgResponseTimeMsGuarded m = none ∧
      (avgResponseTimeMsUnguarded m = GoFloat.nan ∨
        avgResponseTimeMsUnguarded m = GoFloat.posInf) ∧
      avgResponseTimeMsUnguarded m ≠ GoFloat.finite 0) := by
  constructor
  · intro hpos
    have hne : m.QueriesExecuted ≠ 0 := Nat.pos_iff_ne_zero.mp hpos
    constructor
    · simp [avgResponseTimeMsUnguarded, goDivNat, hne, goFloatDivPos]
    · simp [avgResponseTimeMsGuarded, hpos, goDivNat, hne, goFloatDivPos]
  · intro hz
    refine ⟨by simp [avgResponseTimeMsGuarded, hz], ?_, ?_⟩
    · by_cases ht : m.TotalResponseTime = 0
      · exact Or.inl (by simp [avgResponseTimeMsUnguarded, goDivNat, hz, ht, goFloatDivPos])
      · exact Or.inr (by simp [avgResponseTimeMsUnguarded, goDivNat, hz, ht, goFloatDivPos])
    · by_cases ht : m.TotalResponseTime = 0 <;>
        simp [avgResponseTimeMsUnguarded, goDivNat, hz, ht, goFloatDivPos]

/-- Concrete witness for the amended C7: 3 ms over two queries averages
to 1.5 ms; with no queries the guarded snapshot omits the field. -/
theorem C7_witness :
    avgResponseTimeMsGuarded
      { QueriesExecuted := 2, QueryErrors := 0, ConnectionsActive := 0, TotalResponseTime := 3000000 } =
      some (GoFloat.finite ((3000000 : Nat) / ((2 : Nat) : ℚ) / 1000000)) ∧
    avgResponseTimeMsGuarded
      { QueriesExecuted := 0, QueryErrors := 1, ConnectionsActive := 0, TotalResponseTime := 9 } = none := by
  have h1 := C7_average_response_time
    { QueriesExecuted := 2, QueryErrors := 0, ConnectionsActive := 0, TotalResponseTime := 3000000 }
  have h2 := C7_average_response_time
    { QueriesExecuted := 0, QueryErrors := 1, ConnectionsActive := 0, TotalResponseTime := 9 }
  exact ⟨(h1.1 (by decide)).2, (h2.2 (by decide)).1⟩

/-- C10: for every tool request, when a declared argument is absent
from the argument mapping or its value has a dynamic type other than
the declared one (string, number, or boolean), the parameter getter
silently substitutes the documented default value for that argument; a
wrongly-typed argument never produces an error at parameter
extraction. -/
theorem C10_param_defaults (args : GoArgs) (key : String)
    (ds : String) (dn : Int) (db : Bool) :
    ((∀ s, args.lookup key ≠ some (GoValue.str s)) → getStringParam args key ds = ds) ∧
    ((∀ n, args.lookup key ≠ some (GoValue.num n)) → getNumberParam args key dn = dn) ∧
    ((∀ b, args.lookup key ≠ some (GoValue.bool b)) → getBoolParam args key db = db) := by
  refine ⟨?_, ?_, ?_⟩
  · intro hmis
    cases hl : args.lookup key with
    | none => simp [getStringParam, hl]
    | some v =>
      cases v with
      | str s => exact absurd hl (hmis s)
      | num n => simp [getStringParam, hl]
      | bool b => simp [getStringParam, hl]
      | null => simp [getStringParam, hl]
  · intro hmis
    cases hl : args.lookup key with
    | none => simp [getNumberParam, hl]
    | some v =>
      cases v with
      | str s => simp [getNumberParam, hl]
      | num n => exact absurd hl (hmis n)
      | bool b => simp [getNumberParam, hl]
      | null => simp [getNumberParam, hl]
  · intro hmis
    cases hl : args.lookup key with
    | none => simp [getBoolParam, hl]
    | some v =>
      cases v with
      | str s => simp [getBoolParam, hl]
      | num n => simp [getBoolParam, hl]
      | bool b => exact absurd hl (hmis b)
      | null => simp [getBoolParam, hl]

/-- Concrete witness for C10: a number where a string is declared, a
string where a number is declared, and an absent boolean all fall back
to their defaults. -/
theorem C10_witness :
    getStringParam [("x", GoValue.num 3)] "x" "dflt" = "dflt" ∧
    getNumberParam [("x", GoValue.str "y")] "x" 42 = 42 ∧
    getBoolParam [] "missing" true = true := by
  have h1 := C10_param_defaults [("x", GoValue.num 3)] "x" "dflt" 42 true
  have h2 := C10_param_defaults [("x", GoValue.str "y")] "x" "dflt" 42 true
  have h3 := C10_param_defaults ([] : GoArgs) "missing" "dflt" 42 true
  refine ⟨h1.1 ?_, h2.2.1 ?_, h3.2.2 ?_⟩
  · intro s h
    have hl : (([("x", GoValue.num 3)] : GoArgs).lookup "x") = some (GoValue.num 3) := by decide
    rw [hl] at h
    exact GoValue.noConfusion (Option.some.inj h)
  · intro n h
    have hl : (([("x", GoValue.str "y")] : GoArgs).lookup "x") = some (GoValue.str "y") := by decide
    rw [hl] at h
    exact GoValue.noConfusion (Option.some.inj h)
  · intro b h
    have hl : (([] : GoArgs).lookup "missing") = none := rfl
    rw [hl] at h
    exact Option.noConfusion h

end PostgresMCP
